import Mathlib

/-!
# Verification of the wat-worker batch pipeline

Shallow embedding of `src/index.ts` / `src/types.ts` of the wat-worker
repository (a Cloudflare Worker that fans a batch of prompts out to model
backends through a queue and aggregates per-word results into a batch
record), together with proofs and refutations of the specification's
claims about it.

Conventions of the embedding:
* D1/SQL state is modelled explicitly: the `Batches` table as a list of
  `BatchRow`, the `Words` table as a list of `WordRow` in insertion order
  (the `id INTEGER PRIMARY KEY` autoincrement column is the list position;
  note the schema has NO uniqueness constraint on `(word, batch_id)`, so
  repeated inserts of the same word id succeed and append further rows).
* External effects (model invocation via `env.AI.run`, persistence
  success) are supplied as oracles: a message environment carries the
  model invoker as a function returning `Except` and a flag telling
  whether the `INSERT` into `Words` succeeds.
* JavaScript numbers appearing in the status computation are modelled as
  exact rationals (`ℚ`); the counters themselves are `Nat`.
-/

/-- `WordRequest` from `types.ts`: one prompt plus its model identifiers. -/
structure WordRequest where
  id : String
  prompt : String
  models : List String
deriving Repr, DecidableEq

/-- `ModelResponse` from `types.ts`: one model's output for a prompt. -/
structure ModelResponse where
  model : String
  result : String
deriving Repr, DecidableEq

/-- `WordResponse` from `types.ts` as built by the read path: the stored
`result` JSON is always a list of `ModelResponse`, so `results` is the
parsed list. -/
structure WordResponse where
  id : String
  results : List ModelResponse
deriving Repr, DecidableEq

/-- `BatchProgress` from `types.ts`. -/
structure BatchProgress where
  completed : Nat
  failed : Nat
  total : Nat
deriving Repr, DecidableEq

/-- `BatchStatus` from `types.ts`. -/
inductive BatchStatus where
  | QUEUED
  | RUNNING
  | COMPLETE
deriving Repr, DecidableEq

/-- `BatchDetails` from `types.ts`; `output` is `null` (`none`) in the
submission snapshot and a list in the read snapshot. -/
structure BatchDetails where
  status : BatchStatus
  error : Option String
  progress : BatchProgress
  output : Option (List WordResponse)
deriving Repr, DecidableEq

/-- `Batch` from `types.ts`: the client-visible snapshot. -/
structure Batch where
  id : String
  details : BatchDetails
deriving Repr, DecidableEq

/-- `BatchRequest` from `types.ts`: the `(batchId, word)` job message. -/
structure BatchRequest where
  batchId : String
  request : WordRequest
deriving Repr, DecidableEq

/-- A row of the `Batches` table (`schema.sql`): `(id TEXT PRIMARY KEY,
total INTEGER)`. -/
structure BatchRow where
  id : String
  total : Nat
deriving Repr, DecidableEq

/-- A row of the `Words` table (`schema.sql`): `(id INTEGER PRIMARY KEY,
word TEXT, result TEXT, batch_id TEXT)`. The autoincrement `id` is the
position in the row list; `result` holds the parsed JSON list. There is no
uniqueness constraint on `word` or `(word, batch_id)`. -/
structure WordRow where
  word : String
  result : List ModelResponse
  batch_id : String
deriving Repr, DecidableEq

/-- The D1 database state: both tables, `Words` in insertion order. -/
structure DBState where
  batches : List BatchRow
  words : List WordRow
deriving Repr, DecidableEq

/-- The status computation of `app.get('/batch/:id')` (index.ts lines
179–194): `p = 0`, overwritten with `(completed + failed) / total` when
`total > 0`, then `switch (p) { case 0: QUEUED; case 1: COMPLETE;
default: RUNNING }`. JavaScript division is modelled as exact rational
division. -/
def statusFromProgress (progress : BatchProgress) : BatchStatus :=
  let p : ℚ :=
    if progress.total > 0 then
      ((progress.completed : ℚ) + (progress.failed : ℚ)) / (progress.total : ℚ)
    else 0
  if p = 0 then BatchStatus.QUEUED
  else if p = 1 then BatchStatus.COMPLETE
  else BatchStatus.RUNNING

/-- The spec's wording of the Batch Status Aggregator (§4.3), for the
refinement claim C3: `total == 0` or `completed + failed == 0` gives
QUEUED, `completed + failed == total` gives COMPLETE, otherwise RUNNING
(clauses read in order). -/
def specStatusAggregator (completed failed total : Nat) : BatchStatus :=
  if total = 0 ∨ completed + failed = 0 then BatchStatus.QUEUED
  else if completed + failed = total then BatchStatus.COMPLETE
  else BatchStatus.RUNNING

/-- The rows of the `Words` table belonging to one batch, in table order:
`SELECT word, word, json(result) AS result FROM Words WHERE batch_id = ?`
(index.ts lines 156–160). -/
def wordsForBatch (db : DBState) (batchId : String) : List WordRow :=
  db.words.filter (fun w => w.batch_id = batchId)

/-- `app.get('/batch/:id')` (index.ts lines 141–211): look up the batch
row, read all word rows of the batch, build the output list, compute
`progress` with `completed = results.length` and `failed = 0`, derive the
status, and return the snapshot. `none` is the `batch not found` error. -/
def getBatchSnapshot (db : DBState) (batchId : String) : Option Batch :=
  match db.batches.find? (fun b => b.id = batchId) with
  | none => none
  | some batchEntity =>
    let rows := wordsForBatch db batchId
    let output : List WordResponse :=
      rows.map (fun w => { id := w.word, results := w.result })
    let progress : BatchProgress :=
      { completed := rows.length, failed := 0, total := batchEntity.total }
    let status := statusFromProgress progress
    some { id := batchId
           details := { status := status, error := none
                        progress := progress, output := some output } }

/-! ## The queue consumer (`export default { queue }`, index.ts 215–256) -/

/-- What the consumer does with one message: `message.ack()` or
`message.retry({delaySeconds})`. -/
inductive Disposition where
  | ack
  | retry (delaySeconds : Nat)
deriving Repr, DecidableEq

/-- The environment one message's processing runs against: the model
invoker (`env.AI.run(model, {messages:[{role:"user", content:prompt}]})`,
returning the response text or throwing) and whether the `INSERT INTO
Words` statement succeeds when reached. -/
structure MsgEnv where
  invoke : String → String → Except String String
  persistFails : Bool

/-- The per-model loop of the consumer over the model list (index.ts
227–243): invoke each model sequentially, pushing `{model, result}` onto
`modelResults` in list order; the first thrown error aborts the loop. -/
def runModelsList (invoke : String → String → Except String String)
    (prompt : String) : List String → Except String (List ModelResponse)
  | [] => Except.ok []
  | model :: rest =>
    match invoke model prompt with
    | Except.error e => Except.error e
    | Except.ok r =>
      match runModelsList invoke prompt rest with
      | Except.error e => Except.error e
      | Except.ok rs => Except.ok ({ model := model, result := r } :: rs)

/-- The per-model loop applied to a word's own models and prompt. -/
def runModels (invoke : String → String → Except String String)
    (word : WordRequest) : Except String (List ModelResponse) :=
  runModelsList invoke word.prompt word.models

/-- The body of the consumer's per-message `try`/`catch` (index.ts
221–254): run all models; on success `INSERT INTO Words (word, result,
batch_id)` a fresh row and `ack`; any thrown error (a model invocation or
the insert) is caught and answered with `retry({delaySeconds: 5})`,
leaving the database untouched. -/
def processMessage (env : MsgEnv) (db : DBState) (message : BatchRequest) :
    DBState × Disposition :=
  match runModels env.invoke message.request with
  | Except.error _ => (db, Disposition.retry 5)
  | Except.ok modelResults =>
    if env.persistFails then (db, Disposition.retry 5)
    else
      ({ db with
          words := db.words ++
            [{ word := message.request.id, result := modelResults
               batch_id := message.batchId }] },
       Disposition.ack)

/-- The consumer loop over one delivery batch (`for (const message of
batch.messages)`, index.ts 220–255): messages processed in order, the
database threaded through, one disposition recorded per message. -/
def queueConsume (db : DBState) :
    List (BatchRequest × MsgEnv) → DBState × List Disposition
  | [] => (db, [])
  | m :: rest =>
    let (db1, d) := processMessage m.2 db m.1
    let (db2, ds) := queueConsume db1 rest
    (db2, d :: ds)

/-! ## The orchestrator (`WatWorkflow.run`, index.ts 30–51) and the
submission handler (`app.post('/batch')`, index.ts 94–139) -/

/-- An externally visible effect of the submission path, for ordering
claims: the `INSERT INTO Batches`, the workflow creation, and each
`WAT_QUEUE.send`. -/
inductive Effect where
  | insertBatch (id : String) (total : Nat)
  | createWorkflow (batchId : String) (words : List WordRequest)
  | enqueue (message : BatchRequest)
deriving Repr, DecidableEq

/-- `WatWorkflow.run` (index.ts 30–51): for each word, in input order, a
`step.do` sends `{batchId, request: word}` to `WAT_QUEUE`. `sendOk` tells
whether a word's send (after the step's own retries) succeeds; a send
whose step ultimately throws propagates out of the loop, so later words
are not reached in this run. Returns the words whose send was attempted,
the messages actually enqueued, and whether the run finished. -/
def watWorkflowRun (batchId : String) (sendOk : WordRequest → Bool) :
    List WordRequest → List WordRequest × List BatchRequest × Bool
  | [] => ([], [], true)
  | word :: rest =>
    if sendOk word then
      let (attempted, sent, finished) := watWorkflowRun batchId sendOk rest
      (word :: attempted, { batchId := batchId, request := word } :: sent,
       finished)
    else ([word], [], false)

/-- The success path of `app.post('/batch')` (index.ts 101–135): generate
an id, parse the words, build the QUEUED snapshot with `output: null` and
`progress = {0, 0, words.length}`, `INSERT INTO Batches (id, total)`,
create the workflow, and return the snapshot. The effect trace records
the insert followed by the workflow creation. -/
def postBatch (batchId : String) (words : List WordRequest) :
    Batch × List Effect :=
  let progress : BatchProgress :=
    { completed := 0, failed := 0, total := words.length }
  let details : BatchDetails :=
    { status := BatchStatus.QUEUED, error := none
      output := none, progress := progress }
  let batch : Batch := { id := batchId, details := details }
  (batch,
   [Effect.insertBatch batchId words.length,
    Effect.createWorkflow batchId words])

/-- The combined effect trace of one submission: the handler's effects
(insert, then workflow creation) followed by the workflow run's enqueues.
The handler `await`s the insert before creating the workflow, and the
workflow only runs after being created, so this sequencing is the one the
code produces. -/
def submissionTrace (batchId : String) (words : List WordRequest)
    (sendOk : WordRequest → Bool) : List Effect :=
  (postBatch batchId words).2 ++
    ((watWorkflowRun batchId sendOk words).2.1.map Effect.enqueue)

/-! ## Claim C3: the status aggregator -/

/-- For `total > 0`, the rational `(completed + failed) / total` is `0`
exactly when the numerator counters sum to `0`. -/
theorem ratio_eq_zero_iff (completed failed total : Nat) (ht : total ≠ 0) :
    (((completed : ℚ) + (failed : ℚ)) / (total : ℚ) = 0) ↔
      completed + failed = 0 := by
  have htq : (total : ℚ) ≠ 0 := Nat.cast_ne_zero.mpr ht
  rw [div_eq_zero_iff]
  constructor
  · rintro (h | h)
    · exact_mod_cast h
    · exact absurd h htq
  · intro h
    left
    exact_mod_cast h

/-- For `total > 0`, the rational `(completed + failed) / total` is `1`
exactly when the counters sum to `total`. -/
theorem ratio_eq_one_iff (completed failed total : Nat) (ht : total ≠ 0) :
    (((completed : ℚ) + (failed : ℚ)) / (total : ℚ) = 1) ↔
      completed + failed = total := by
  have htq : (total : ℚ) ≠ 0 := Nat.cast_ne_zero.mpr ht
  rw [div_eq_one_iff_eq htq]
  exact_mod_cast Iff.rfl

/-- The rational status computation evaluated: it agrees with the pure
`Nat` case split, which (unlike `ℚ` division, whose normalization runs
`Nat.gcd` by well-founded recursion) the kernel can evaluate. -/
theorem statusFromProgress_eval (completed failed total : Nat) :
    statusFromProgress
        { completed := completed, failed := failed, total := total } =
      specStatusAggregator completed failed total := by
  simp only [statusFromProgress, specStatusAggregator]
  by_cases ht : total = 0
  · subst ht
    simp
  · have hpos : 0 < total := Nat.pos_of_ne_zero ht
    simp only [hpos, if_pos, gt_iff_lt]
    by_cases hz : completed + failed = 0
    · have h0 := (ratio_eq_zero_iff completed failed total ht).mpr hz
      simp [h0, hz]
    · have h0 : ¬ (((completed : ℚ) + (failed : ℚ)) / (total : ℚ) = 0) :=
        fun h => hz ((ratio_eq_zero_iff completed failed total ht).mp h)
      by_cases hc : completed + failed = total
      · have h1 := (ratio_eq_one_iff completed failed total ht).mpr hc
        simp [h0, h1, ht, hz, hc]
      · have h1 : ¬ (((completed : ℚ) + (failed : ℚ)) / (total : ℚ) = 1) :=
          fun h => hc ((ratio_eq_one_iff completed failed total ht).mp h)
        simp [h0, h1, ht, hz, hc]

/-- Claim C3: the batch status aggregator is a pure function of
`(completed, failed, total)`: it returns QUEUED when `total == 0` or
`completed + failed == 0`, COMPLETE when `completed + failed == total`,
and RUNNING otherwise, for every non-negative triple of counters. -/
theorem status_aggregator_matches_spec (completed failed total : Nat) :
    statusFromProgress
        { completed := completed, failed := failed, total := total } =
      specStatusAggregator completed failed total :=
  statusFromProgress_eval completed failed total

/-! ## Claim C4: COMPLETE iff the counters fill the total -/

/-- The status computation yields COMPLETE exactly when the counters sum
to the total AND the total is positive: an empty batch (`total = 0`)
takes the `p = 0` branch and reports QUEUED. -/
theorem statusFromProgress_complete_iff (completed failed total : Nat) :
    statusFromProgress
        { completed := completed, failed := failed, total := total } =
      BatchStatus.COMPLETE ↔ (completed + failed = total ∧ 0 < total) := by
  rw [statusFromProgress_eval]
  simp only [specStatusAggregator]
  split_ifs with h1 h2 <;> simp_all <;> omega

/-- The read path with the status computed by the `Nat` case split
instead of `ℚ` division, so that the kernel can evaluate it. -/
def getBatchSnapshotEval (db : DBState) (batchId : String) : Option Batch :=
  match db.batches.find? (fun b => b.id = batchId) with
  | none => none
  | some batchEntity =>
    let rows := wordsForBatch db batchId
    some { id := batchId
           details :=
             { status := specStatusAggregator rows.length 0 batchEntity.total
               error := none
               progress :=
                 { completed := rows.length, failed := 0
                   total := batchEntity.total }
               output := some (rows.map
                 (fun w => { id := w.word, results := w.result })) } }

/-- The read path equals its kernel-evaluable form. -/
theorem getBatchSnapshot_eq_eval (db : DBState) (batchId : String) :
    getBatchSnapshot db batchId = getBatchSnapshotEval db batchId := by
  cases hfind : db.batches.find? (fun b => b.id = batchId) with
  | none => rw [getBatchSnapshot, getBatchSnapshotEval, hfind]
  | some entity =>
    rw [getBatchSnapshot, getBatchSnapshotEval, hfind]
    simp [statusFromProgress_eval]

/-- Any snapshot the read path returns is fully determined by the batch
row it found and the word rows of the batch. -/
theorem getBatchSnapshot_eq_some (db : DBState) (batchId : String)
    (b : Batch) (h : getBatchSnapshot db batchId = some b) :
    ∃ entity, db.batches.find? (fun r => r.id = batchId) = some entity ∧
      b = { id := batchId
            details :=
              { status := statusFromProgress
                  { completed := (wordsForBatch db batchId).length
                    failed := 0, total := entity.total }
                error := none
                progress :=
                  { completed := (wordsForBatch db batchId).length
                    failed := 0, total := entity.total }
                output := some ((wordsForBatch db batchId).map
                  (fun w => { id := w.word, results := w.result })) } } := by
  cases hfind : db.batches.find? (fun r => r.id = batchId) with
  | none =>
    rw [getBatchSnapshot, hfind] at h
    cases h
  | some entity =>
    rw [getBatchSnapshot, hfind] at h
    exact ⟨entity, rfl, (Option.some_inj.mp h).symm⟩

/-- The empty batch as persisted by submitting zero words: a `Batches`
row with `total = 0` and no `Words` rows. -/
def emptyBatchDB : DBState :=
  { batches := [{ id := "b", total := 0 }], words := [] }

/-- Counterexample to claim C4 as stated: for the empty batch, the read
path reports counters with `completed + failed = total` (`0 + 0 = 0`) yet
a status of QUEUED, not COMPLETE. -/
theorem complete_iff_fails_for_empty_batch :
    ((getBatchSnapshot emptyBatchDB "b").map
        (fun b => b.details.progress)) =
      some { completed := 0, failed := 0, total := 0 } ∧
    ((getBatchSnapshot emptyBatchDB "b").map
        (fun b => b.details.status)) = some BatchStatus.QUEUED ∧
    BatchStatus.QUEUED ≠ BatchStatus.COMPLETE ∧ 0 + 0 = 0 := by
  rw [getBatchSnapshot_eq_eval]
  refine ⟨by decide, by decide, by decide, rfl⟩

/-- Claim C4 (amended): for every batch, the reported status is COMPLETE
iff `progress.completed + progress.failed = progress.total` AND
`progress.total > 0`; for `total = 0` the code reports QUEUED even though
the counters sum to the total. -/
theorem status_complete_iff_counters (db : DBState) (batchId : String)
    (b : Batch) (h : getBatchSnapshot db batchId = some b) :
    b.details.status = BatchStatus.COMPLETE ↔
      (b.details.progress.completed + b.details.progress.failed =
          b.details.progress.total ∧ 0 < b.details.progress.total) := by
  obtain ⟨entity, _, hb⟩ := getBatchSnapshot_eq_some db batchId b h
  subst hb
  exact statusFromProgress_complete_iff (wordsForBatch db batchId).length 0
    entity.total

/-- A batch of one word whose single word has been merged. -/
def dbOneDone : DBState :=
  { batches := [{ id := "b", total := 1 }]
    words := [{ word := "w1", result := [{ model := "m1", result := "out" }]
                batch_id := "b" }] }

/-- The snapshot the read path returns for `dbOneDone`. -/
def oneDoneBatch : Batch :=
  { id := "b"
    details :=
      { status := BatchStatus.COMPLETE, error := none
        progress := { completed := 1, failed := 0, total := 1 }
        output := some [{ id := "w1"
                          results := [{ model := "m1", result := "out" }] }] } }

/-- Witness for `status_complete_iff_counters` at the concrete completed
one-word batch. -/
theorem status_complete_iff_counters_witness :
    oneDoneBatch.details.status = BatchStatus.COMPLETE ↔
      (oneDoneBatch.details.progress.completed +
          oneDoneBatch.details.progress.failed =
        oneDoneBatch.details.progress.total ∧
        0 < oneDoneBatch.details.progress.total) :=
  status_complete_iff_counters dbOneDone "b" oneDoneBatch
    (by rw [getBatchSnapshot_eq_eval]; decide)

/-! ## Claims C1 and C2: duplicate delivery of the same job

The `Words` table (`schema.sql`) has no uniqueness constraint on
`(word, batch_id)` — only the autoincrement `id` is a key — and the
consumer runs a plain `INSERT` with no existence check, so a second
successful delivery of the same `(batchId, word)` message inserts a
second row, and the read path (which counts rows as `completed`) reports
it. -/

/-- The one word of the duplicate-delivery scenario. -/
def w1 : WordRequest := { id := "w1", prompt := "hi", models := ["m1"] }

/-- The `(batchId, word)` job message of the scenario. -/
def job1 : BatchRequest := { batchId := "b", request := w1 }

/-- An environment in which every model invocation and the insert
succeed. -/
def okEnv : MsgEnv :=
  { invoke := fun _ _ => Except.ok "text", persistFails := false }

/-- The freshly created batch of the scenario: one word, nothing merged
yet. -/
def freshBatchDB : DBState :=
  { batches := [{ id := "b", total := 1 }], words := [] }

/-- The database after `job1` is delivered and processed once. -/
def afterOnce : DBState := (queueConsume freshBatchDB [(job1, okEnv)]).1

/-- The database after `job1` is delivered and processed twice (duplicate
at-least-once delivery, both deliveries succeeding). -/
def afterTwice : DBState :=
  (queueConsume freshBatchDB [(job1, okEnv), (job1, okEnv)]).1

/-- Claims C1/C2, evaluation at the failing input: both deliveries of the
same job are acknowledged, yet the batch then reports
`progress.completed = 2` (against `1` after a single processing) and its
output holds two WordResults for `w1` — the unconstrained `INSERT`
double-counts instead of being idempotent. -/
theorem duplicate_delivery_double_counts :
    (queueConsume freshBatchDB [(job1, okEnv), (job1, okEnv)]).2 =
      [Disposition.ack, Disposition.ack] ∧
    ((getBatchSnapshot afterOnce "b").map
        (fun b => b.details.progress.completed)) = some 1 ∧
    ((getBatchSnapshot afterTwice "b").map
        (fun b => b.details.progress.completed)) = some 2 ∧
    ((getBatchSnapshot afterTwice "b").map
        (fun b => ((b.details.output.getD []).filter
          (fun w => w.id = "w1")).length)) = some 2 := by
  refine ⟨by decide, ?_, ?_, ?_⟩ <;> rw [getBatchSnapshot_eq_eval] <;> decide

/-- Claim C2, evaluation at the failing input: after the duplicate
delivery the reported counters are `completed = 2`, `failed = 0`,
`total = 1`, violating `completed + failed ≤ total`. -/
theorem duplicate_delivery_breaks_progress_bound :
    ((getBatchSnapshot afterTwice "b").map
        (fun b => (b.details.progress.completed, b.details.progress.failed,
          b.details.progress.total))) = some (2, 0, 1) ∧
    ¬ (2 + 0 ≤ 1) := by
  refine ⟨by rw [getBatchSnapshot_eq_eval]; decide, by decide⟩

/-! ## Claim C5: failure leaves the batch untouched and retries in 5 s -/

/-- If some model in the list fails on the prompt, the sequential
per-model loop ends in that (or an earlier) error. -/
theorem runModelsList_error_of_mem
    (invoke : String → String → Except String String) (prompt : String)
    (models : List String) (m : String) (hm : m ∈ models) (e : String)
    (he : invoke m prompt = Except.error e) :
    ∃ e2, runModelsList invoke prompt models = Except.error e2 := by
  induction models with
  | nil => cases hm
  | cons x xs ih =>
    rcases List.mem_cons.mp hm with h | h
    · subst h
      exact ⟨e, by rw [runModelsList, he]⟩
    · cases hx : invoke x prompt with
      | error e3 => exact ⟨e3, by rw [runModelsList, hx]⟩
      | ok r =>
        obtain ⟨e2, h2⟩ := ih h
        exact ⟨e2, by rw [runModelsList, hx, h2]⟩

/-- Claim C5: if any model invocation for the word errors, or the
persistence of the merged WordResult fails, the consumer persists nothing
for that word (the database is unchanged) and answers the message with
`retry({delaySeconds: 5})` instead of `ack`. -/
theorem failure_retries_without_persisting (env : MsgEnv) (db : DBState)
    (message : BatchRequest)
    (h : (∃ m ∈ message.request.models, ∃ e,
            env.invoke m message.request.prompt = Except.error e) ∨
         env.persistFails = true) :
    processMessage env db message = (db, Disposition.retry 5) := by
  rcases h with ⟨m, hm, e, he⟩ | hp
  · obtain ⟨e2, h2⟩ := runModelsList_error_of_mem env.invoke
      message.request.prompt message.request.models m hm e he
    rw [processMessage, runModels] at *
    rw [h2]
  · rw [processMessage]
    cases runModels env.invoke message.request with
    | error e => rfl
    | ok rs => simp [hp]

/-- An environment whose model backend is down. -/
def downEnv : MsgEnv :=
  { invoke := fun _ _ => Except.error "backend down", persistFails := false }

/-- Witness for `failure_retries_without_persisting`: the one-word job
against the down backend is retried after 5 seconds and the fresh batch
database is left exactly as it was. -/
theorem failure_retries_without_persisting_witness :
    processMessage downEnv freshBatchDB job1 =
      (freshBatchDB, Disposition.retry 5) :=
  failure_retries_without_persisting downEnv freshBatchDB job1
    (Or.inl ⟨"m1", by decide, "backend down", rfl⟩)

/-! ## Claim C6: per-message error isolation in the consumer loop -/

/-- A message's disposition depends only on its own environment and
content, never on the database state it is processed against. -/
theorem processMessage_disposition_state_independent (env : MsgEnv)
    (message : BatchRequest) (db db2 : DBState) :
    (processMessage env db message).2 = (processMessage env db2 message).2 := by
  rw [processMessage, processMessage]
  cases runModels env.invoke message.request with
  | error e => rfl
  | ok rs => cases hp : env.persistFails <;> simp [hp]

/-- Claim C6: the consumer loop catches each message's error at the
message boundary: every message of the delivery batch is attempted and
receives exactly the disposition it would receive processed alone from
the initial state, so one message's failure neither crashes the loop nor
affects a sibling's outcome. -/
theorem consumer_isolates_message_failures
    (messages : List (BatchRequest × MsgEnv)) (db : DBState) :
    (queueConsume db messages).2 =
      messages.map (fun m => (processMessage m.2 db m.1).2) := by
  induction messages generalizing db with
  | nil => rfl
  | cons m rest ih =>
    rw [queueConsume, List.map_cons]
    refine congrArg₂ List.cons rfl ?_
    rw [ih]
    exact List.map_congr_left (fun x _ =>
      processMessage_disposition_state_independent x.2 x.1
        (processMessage m.2 db m.1).1 db)

/-! ## Claim C7: the orchestrator's enqueue loop -/

/-- Two further words for orchestrator and permutation scenarios. -/
def wA : WordRequest := { id := "wA", prompt := "pa", models := ["m1"] }

/-- Second word of the two-word scenarios. -/
def wB : WordRequest := { id := "wB", prompt := "pb", models := ["m1"] }

/-- A send oracle under which exactly the word `wA` fails to enqueue. -/
def failOnA : WordRequest → Bool := fun w => w.id ≠ "wA"

/-- Counterexample to claim C7 as stated: with words `[wA, wB]` and
`wA`'s enqueue failing, the sequential `for`/`await` loop propagates the
exception, so the run attempts only `wA`, sends nothing, and never
attempts `wB` — a failure on one word's enqueue does prevent attempting
the remaining words in that run. -/
theorem enqueue_failure_stops_the_run :
    (watWorkflowRun "b" failOnA [wA, wB]).1 = [wA] ∧
    (watWorkflowRun "b" failOnA [wA, wB]).2.1 = [] ∧
    wB ∉ (watWorkflowRun "b" failOnA [wA, wB]).1 := by
  refine ⟨by decide, by decide, by decide⟩

/-- Claim C7 (amended): the orchestrator enqueues exactly one job message
per word, in the input order of the word list, as long as every send
succeeds; but when a word's send fails after the words `front` have been
sent, the run stops there — it has attempted exactly `front ++ [w]`,
enqueued exactly the jobs of `front`, and the remaining words are not
attempted in that run (resumption is left to the workflow engine's step
retries). -/
theorem orchestrator_enqueue_behavior (batchId : String)
    (sendOk : WordRequest → Bool) :
    (∀ words, (∀ w ∈ words, sendOk w = true) →
      watWorkflowRun batchId sendOk words =
        (words,
         words.map (fun w => { batchId := batchId, request := w }), true)) ∧
    (∀ front w rest, (∀ x ∈ front, sendOk x = true) → sendOk w = false →
      watWorkflowRun batchId sendOk (front ++ w :: rest) =
        (front ++ [w],
         front.map (fun x => { batchId := batchId, request := x }),
         false)) := by
  constructor
  · intro words hall
    induction words with
    | nil => rfl
    | cons x xs ih =>
      have hx : sendOk x = true := hall x (List.mem_cons_self x xs)
      have hxs := ih (fun w hw => hall w (List.mem_cons_of_mem x hw))
      rw [watWorkflowRun, hx, if_pos rfl, hxs]
      rfl
  · intro front w rest hfront hw
    induction front with
    | nil =>
      rw [List.nil_append, watWorkflowRun, hw]
      rfl
    | cons x xs ih =>
      have hx : sendOk x = true := hfront x (List.mem_cons_self x xs)
      have hxs := ih (fun y hy => hfront y (List.mem_cons_of_mem x hy))
      rw [List.cons_append, watWorkflowRun, hx, if_pos rfl, hxs]
      rfl

/-- Witness for `orchestrator_enqueue_behavior`: under `failOnA`, the run
on `[wB]` sends `wB`'s job and finishes, while the run on `[wB, wA, wB]`
sends only `wB`'s job, stops at `wA`, and never reaches the last word. -/
theorem orchestrator_enqueue_behavior_witness :
    watWorkflowRun "b" failOnA [wB] =
      ([wB], [{ batchId := "b", request := wB }], true) ∧
    watWorkflowRun "b" failOnA [wB, wA, wB] =
      ([wB, wA], [{ batchId := "b", request := wB }], false) :=
  ⟨(orchestrator_enqueue_behavior "b" failOnA).1 [wB] (by decide),
   (orchestrator_enqueue_behavior "b" failOnA).2 [wB] wA [wB]
     (by decide) (by decide)⟩

/-! ## Claim C8: the submission snapshot and the causal order -/

/-- Claim C8: a successful submission of `n` words returns a snapshot
with status QUEUED, `output = null` and `progress = {0, 0, n}`, and in
the submission's effect trace the durable `INSERT INTO Batches` is the
very first effect, strictly before every enqueue of a job of the batch. -/
theorem submission_snapshot_and_causal_order (batchId : String)
    (words : List WordRequest) (sendOk : WordRequest → Bool) :
    ((postBatch batchId words).1 =
      { id := batchId
        details :=
          { status := BatchStatus.QUEUED, error := none
            progress := { completed := 0, failed := 0
                          total := words.length }
            output := none } }) ∧
    (∀ i message,
      (submissionTrace batchId words sendOk)[i]? =
          some (Effect.enqueue message) →
      0 < i ∧ (submissionTrace batchId words sendOk)[0]? =
          some (Effect.insertBatch batchId words.length)) := by
  constructor
  · rfl
  · intro i message hi
    have htrace : submissionTrace batchId words sendOk =
        Effect.insertBatch batchId words.length ::
          Effect.createWorkflow batchId words ::
            ((watWorkflowRun batchId sendOk words).2.1.map Effect.enqueue) :=
      rfl
    refine ⟨?_, by rw [htrace]; rfl⟩
    rcases i with _ | i
    · rw [htrace] at hi
      simp at hi
    · exact Nat.succ_pos i

/-- Witness for `submission_snapshot_and_causal_order`: the submission of
the single word `wB` enqueues its job at trace position 2, after the
batch row insert at position 0. -/
theorem submission_snapshot_and_causal_order_witness :
    ((postBatch "b" [wB]).1 =
      { id := "b"
        details :=
          { status := BatchStatus.QUEUED, error := none
            progress := { completed := 0, failed := 0, total := 1 }
            output := none } }) ∧
    (0 < 2 ∧ (submissionTrace "b" [wB] (fun _ => true))[0]? =
        some (Effect.insertBatch "b" 1)) :=
  ⟨(submission_snapshot_and_causal_order "b" [wB] (fun _ => true)).1,
   (submission_snapshot_and_causal_order "b" [wB] (fun _ => true)).2 2
     { batchId := "b", request := wB } (by decide)⟩

/-! ## Claim C9: merge order independence -/

/-- An environment in which every model invocation succeeds, answering
with `respond model prompt`, and every insert succeeds. -/
def successEnv (respond : String → String → String) : MsgEnv :=
  { invoke := fun model prompt => Except.ok (respond model prompt)
    persistFails := false }

/-- The `Words` row that successfully processing word `w` inserts. -/
def rowOf (batchId : String) (respond : String → String → String)
    (w : WordRequest) : WordRow :=
  { word := w.id
    result := w.models.map
      (fun m => { model := m, result := respond m w.prompt })
    batch_id := batchId }

/-- The database after the consumer has successfully processed one
message per word of `order`, in that order. -/
def mergeRun (db : DBState) (batchId : String)
    (respond : String → String → String) (order : List WordRequest) :
    DBState :=
  (queueConsume db (order.map
    (fun w => ({ batchId := batchId, request := w }, successEnv respond)))).1

/-- Against the all-success environment the per-model loop returns the
full result list, one entry per model, in model order. -/
theorem runModelsList_success (respond : String → String → String)
    (prompt : String) (models : List String) :
    runModelsList (successEnv respond).invoke prompt models =
      Except.ok (models.map
        (fun m => { model := m, result := respond m prompt })) := by
  induction models with
  | nil => rfl
  | cons x xs ih => rw [runModelsList, List.map_cons]; rw [successEnv] at ih ⊢; rw [ih]

/-- Successfully processing one message appends exactly one row for its
word and acknowledges. -/
theorem processMessage_success (respond : String → String → String)
    (db : DBState) (batchId : String) (w : WordRequest) :
    processMessage (successEnv respond) db
        { batchId := batchId, request := w } =
      ({ batches := db.batches
         words := db.words ++ [rowOf batchId respond w] },
       Disposition.ack) := by
  rw [processMessage, runModels, runModelsList_success]
  rfl

/-- The state of the consumer's first step inside the loop. -/
theorem queueConsume_cons_fst (db : DBState) (m : BatchRequest × MsgEnv)
    (rest : List (BatchRequest × MsgEnv)) :
    (queueConsume db (m :: rest)).1 =
      (queueConsume (processMessage m.2 db m.1).1 rest).1 := rfl

/-- A merge run leaves the `Batches` table alone and appends one row per
processed word, in processing order. -/
theorem mergeRun_eq (batchId : String)
    (respond : String → String → String) (order : List WordRequest) :
    ∀ db, mergeRun db batchId respond order =
      { batches := db.batches
        words := db.words ++ order.map (rowOf batchId respond) } := by
  induction order with
  | nil => intro db; simp [mergeRun, queueConsume]
  | cons w ws ih =>
    intro db
    rw [mergeRun, List.map_cons, queueConsume_cons_fst, processMessage_success]
    have := ih { batches := db.batches
                 words := db.words ++ [rowOf batchId respond w] }
    rw [mergeRun] at this
    rw [this]
    simp

/-- Claim C9: merging the words of a batch in any permutation of
completion order yields an identical final batch state: identical
progress counters, identical status, and outputs that are permutations of
each other, hence the same set of WordResults. -/
theorem merge_order_independent (db : DBState) (batchId : String)
    (respond : String → String → String) (order1 order2 : List WordRequest)
    (hperm : order1.Perm order2) (b1 b2 : Batch)
    (h1 : getBatchSnapshot (mergeRun db batchId respond order1) batchId =
      some b1)
    (h2 : getBatchSnapshot (mergeRun db batchId respond order2) batchId =
      some b2) :
    b1.details.progress = b2.details.progress ∧
    b1.details.status = b2.details.status ∧
    ∃ o1 o2, b1.details.output = some o1 ∧ b2.details.output = some o2 ∧
      o1.Perm o2 ∧ o1.toFinset = o2.toFinset := by
  obtain ⟨e1, hf1, hb1⟩ := getBatchSnapshot_eq_some _ _ _ h1
  obtain ⟨e2, hf2, hb2⟩ := getBatchSnapshot_eq_some _ _ _ h2
  rw [mergeRun_eq] at hf1 hf2 hb1 hb2
  have hee : e1 = e2 := by
    rw [hf1] at hf2
    exact Option.some_inj.mp hf2
  subst hee
  subst hb1
  subst hb2
  have hrows : (wordsForBatch
      { batches := db.batches
        words := db.words ++ order1.map (rowOf batchId respond) }
      batchId).Perm (wordsForBatch
      { batches := db.batches
        words := db.words ++ order2.map (rowOf batchId respond) }
      batchId) := by
    rw [wordsForBatch, wordsForBatch]
    simp only [List.filter_append]
    exact List.Perm.append_left _
      ((hperm.map (rowOf batchId respond)).filter _)
  have hlen := hrows.length_eq
  refine ⟨by rw [hlen], by rw [hlen], ?_⟩
  exact ⟨_, _, rfl, rfl, hrows.map _,
    List.toFinset_eq_of_perm _ _ (hrows.map _)⟩

/-- A fresh two-word batch for the permutation witness. -/
def dbTwo : DBState := { batches := [{ id := "b", total := 2 }], words := [] }

/-- A model backend answering `out` to everything. -/
def constResponder : String → String → String := fun _ _ => "out"

/-- The snapshot after merging `[wA, wB]` in that order into `dbTwo`. -/
def permBatch1 : Batch :=
  { id := "b"
    details :=
      { status := BatchStatus.COMPLETE, error := none
        progress := { completed := 2, failed := 0, total := 2 }
        output := some
          [{ id := "wA", results := [{ model := "m1", result := "out" }] },
           { id := "wB", results := [{ model := "m1", result := "out" }] }] } }

/-- The snapshot after merging in the opposite order `[wB, wA]`. -/
def permBatch2 : Batch :=
  { id := "b"
    details :=
      { status := BatchStatus.COMPLETE, error := none
        progress := { completed := 2, failed := 0, total := 2 }
        output := some
          [{ id := "wB", results := [{ model := "m1", result := "out" }] },
           { id := "wA", results := [{ model := "m1", result := "out" }] }] } }

/-- Witness for `merge_order_independent` on the concrete two-word batch
merged in the two opposite orders. -/
theorem merge_order_independent_witness :
    permBatch1.details.progress = permBatch2.details.progress ∧
    permBatch1.details.status = permBatch2.details.status ∧
    ∃ o1 o2, permBatch1.details.output = some o1 ∧
      permBatch2.details.output = some o2 ∧
      o1.Perm o2 ∧ o1.toFinset = o2.toFinset :=
  merge_order_independent dbTwo "b" constResponder [wA, wB] [wB, wA]
    (by decide) permBatch1 permBatch2
    (by rw [getBatchSnapshot_eq_eval]; decide)
    (by rw [getBatchSnapshot_eq_eval]; decide)

/-! ## Claim C10: the failed counter is never incremented -/

/-- Claim C10: every snapshot the read path returns carries
`progress.failed = 0` — the handler hardcodes the field and no code path
writes a failure count, so permanently failing words keep a batch at
RUNNING with `failed = 0` rather than ever being counted. -/
theorem read_reports_failed_zero (db : DBState) (batchId : String)
    (b : Batch) (h : getBatchSnapshot db batchId = some b) :
    b.details.progress.failed = 0 := by
  obtain ⟨e, _, hb⟩ := getBatchSnapshot_eq_some db batchId b h
  subst hb
  rfl

/-- A three-word batch stuck with one word never succeeding: two rows
merged, the third missing. -/
def dbStuck : DBState :=
  { batches := [{ id := "b", total := 3 }]
    words :=
      [{ word := "wA", result := [{ model := "m1", result := "out" }]
         batch_id := "b" },
       { word := "wB", result := [{ model := "m1", result := "out" }]
         batch_id := "b" }] }

/-- The snapshot of the stuck batch: RUNNING, `completed = 2`. -/
def stuckBatch : Batch :=
  { id := "b"
    details :=
      { status := BatchStatus.RUNNING, error := none
        progress := { completed := 2, failed := 0, total := 3 }
        output := some
          [{ id := "wA", results := [{ model := "m1", result := "out" }] },
           { id := "wB", results := [{ model := "m1", result := "out" }] }] } }

/-- Witness for `read_reports_failed_zero`: the stuck batch reads back
with `failed = 0` while reporting RUNNING. -/
theorem read_reports_failed_zero_witness :
    stuckBatch.details.progress.failed = 0 ∧
    stuckBatch.details.status = BatchStatus.RUNNING :=
  ⟨read_reports_failed_zero dbStuck "b" stuckBatch
      (by rw [getBatchSnapshot_eq_eval]; decide),
   by decide⟩
